import Mathlib

/-!
Shallow embedding of the cart/order core of the E-commerce repository.

Cart side (mysql2-based `cartModel.ts` + `cartController.ts`): the CartItem
table is a list of rows; SQL statements become list operations on the state.
Order side (prisma-based `orderRoutes.ts`): each handler is a state
transformer on the order/orderItem/payment tables.  The prisma calls in
`POST /orders/:id/items` are *not* wrapped in a transaction in the source,
so the embedding threads an explicit failure schedule (`failAt`) naming
which write throws; a throw aborts the handler with a 500 response and the
state keeps all writes already executed, exactly as the sequential awaits
in the source behave.
-/

namespace ECom

/-- Product row, as selected by the handlers (`stock`, `price`, `id`).
Stock is a non-negative integer column; price a numeric column. -/
structure Product where
  id : Nat
  price : Int
  stock : Nat
deriving DecidableEq

/-- Cart row (`cartModel.ts`): id and owning userId. -/
structure Cart where
  id : Nat
  userId : Nat
deriving DecidableEq

/-- CartItem row (`cartModel.ts`). Quantity is a JS number supplied by the
client and may be non-positive, hence `Int`. -/
structure CartItem where
  id : Nat
  cartId : Nat
  productId : Nat
  quantity : Int
deriving DecidableEq

/-- The cart-side database state: the Cart and CartItem tables plus the
auto-increment counters. -/
structure CartDb where
  carts : List Cart
  items : List CartItem
  nextCartId : Nat
  nextItemId : Nat
deriving DecidableEq

/-- `SELECT * FROM Cart WHERE userId = ?` returning the first row
(`findCartByUserId`). -/
def findCartByUserId (db : CartDb) (userId : Nat) : Option Cart :=
  db.carts.find? (fun c => c.userId == userId)

/-- `SELECT * FROM CartItem WHERE id = ?` returning the first row
(`findCartItemById`). -/
def findCartItemById (db : CartDb) (id : Nat) : Option CartItem :=
  db.items.find? (fun it => it.id == id)

/-- `SELECT * FROM CartItem WHERE cartId = ?` (`findCartItemsByCartId`),
the items of a cart as returned by `getCart`. -/
def findCartItemsByCartId (db : CartDb) (cartId : Nat) : List CartItem :=
  db.items.filter (fun it => it.cartId == cartId)

/-- `SELECT * FROM CartItem WHERE cartId = ? AND productId = ?` returning
the first row (`findCartItemByCartIdAndProductId`). -/
def findCartItemByCartIdAndProductId (db : CartDb) (cartId productId : Nat) :
    Option CartItem :=
  db.items.find? (fun it => it.cartId == cartId && it.productId == productId)

/-- `INSERT INTO CartItem (cartId, productId, quantity) VALUES (?, ?, ?)`
followed by re-reading the new row (`createCartItem`); the fresh id is the
auto-increment counter. -/
def createCartItem (db : CartDb) (cartId productId : Nat) (quantity : Int) :
    CartItem × CartDb :=
  let it : CartItem := ⟨db.nextItemId, cartId, productId, quantity⟩
  (it, { db with items := db.items ++ [it], nextItemId := db.nextItemId + 1 })

/-- `UPDATE CartItem SET quantity = ? WHERE id = ?` then re-read the row
(`updateCartItem`); throws (`none`) when no row with that id exists. -/
def updateCartItem (db : CartDb) (id : Nat) (quantity : Int) :
    Option (CartItem × CartDb) :=
  let upd := fun it : CartItem =>
    if it.id == id then { it with quantity := quantity } else it
  let db' : CartDb := { db with items := db.items.map upd }
  (findCartItemById db' id).map (fun it => (it, db'))

/-- `DELETE FROM CartItem WHERE id = ?` (`deleteCartItem`); throws (`none`)
when no row was affected. -/
def deleteCartItem (db : CartDb) (id : Nat) : Option CartDb :=
  if db.items.any (fun it => it.id == id) then
    some { db with items := db.items.filter (fun it => it.id != id) }
  else none

/-- `DELETE FROM CartItem WHERE cartId = ?` (`deleteCartItemsByCartId`);
affectedRows is not checked, so an empty cart is a no-op. -/
def deleteCartItemsByCartId (db : CartDb) (cartId : Nat) : CartDb :=
  { db with items := db.items.filter (fun it => it.cartId != cartId) }

/-- `getOrCreateCartWithItems`: the existing cart for the user, else a
freshly inserted one. -/
def getOrCreateCart (db : CartDb) (userId : Nat) : Cart × CartDb :=
  match findCartByUserId db userId with
  | some c => (c, db)
  | none =>
      let c : Cart := ⟨db.nextCartId, userId⟩
      (c, { db with carts := db.carts ++ [c], nextCartId := db.nextCartId + 1 })

/-- `addItemToCart` (`cartModel.ts`): look up the item for
(cartId, productId); if present, a non-positive quantity deletes it and a
positive quantity overwrites it; if absent, a non-positive quantity is a
no-op and a positive quantity inserts a new row.  `none` is the thrown
error (the transaction rolls back, so no state accompanies it); the inner
`Option CartItem` is the returned row, `Option.none` when the item was
removed. -/
def addItemToCart (db : CartDb) (cartId productId : Nat) (quantity : Int) :
    Option (Option CartItem × CartDb) :=
  match findCartItemByCartIdAndProductId db cartId productId with
  | some existingItem =>
      if quantity ≤ 0 then
        (deleteCartItem db existingItem.id).map (fun db' => (none, db'))
      else
        (updateCartItem db existingItem.id quantity).map
          (fun r => (some r.1, r.2))
  | none =>
      if quantity ≤ 0 then
        some (none, db)
      else
        let r := createCartItem db cartId productId quantity
        some (some r.1, r.2)

/-- HTTP outcome of a cart handler. -/
inductive CartResp where
  | created (item : Option CartItem)
  | okItem (item : CartItem)
  | okMsg (msg : String)
  | notFound (msg : String)
  | badRequest (msg : String)
  | serverError
deriving DecidableEq

/-- `addItemToCartHandler` (`cartController.ts`): 404 when the product does
not exist, 400 when the requested quantity exceeds the stock, otherwise
get-or-create the cart and delegate to `addItemToCart`.  A thrown model
error becomes a 500 with the cart-creation state kept (its transaction
already committed) and the item transaction rolled back. -/
def addItemToCartHandler (products : List Product) (db : CartDb)
    (userId productId : Nat) (quantity : Int) : CartResp × CartDb :=
  match products.find? (fun p => p.id == productId) with
  | none =>
      (CartResp.notFound
        ("Product with ID " ++ toString productId ++ " not found."), db)
  | some product =>
      if quantity > (product.stock : Int) then
        (CartResp.badRequest
          ("Cannot add " ++ toString quantity ++ " items. Only "
            ++ toString product.stock ++ " are in stock."), db)
      else
        let rc := getOrCreateCart db userId
        match addItemToCart rc.2 rc.1.id productId quantity with
        | some r => (CartResp.created r.1, r.2)
        | none => (CartResp.serverError, rc.2)

/-- `updateCartItemHandler` (`cartController.ts`): ownership check via the
user's cart, then stock check, then delete (quantity ≤ 0) or update. -/
def updateCartItemHandler (products : List Product) (db : CartDb)
    (userId itemId : Nat) (quantity : Int) : CartResp × CartDb :=
  match findCartByUserId db userId with
  | none => (CartResp.notFound "Cart not found.", db)
  | some cart =>
      match findCartItemById db itemId with
      | none =>
          (CartResp.notFound "Cart item not found or does not belong to user.",
            db)
      | some item =>
          if item.cartId != cart.id then
            (CartResp.notFound
              "Cart item not found or does not belong to user.", db)
          else
            match products.find? (fun p => p.id == item.productId) with
            | none =>
                (CartResp.notFound
                  ("Associated product with ID " ++ toString item.productId
                    ++ " not found."), db)
            | some product =>
                if quantity > (product.stock : Int) then
                  (CartResp.badRequest
                    ("Cannot update to " ++ toString quantity
                      ++ " items. Only " ++ toString product.stock
                      ++ " are in stock."), db)
                else if quantity ≤ 0 then
                  match deleteCartItem db itemId with
                  | some db' => (CartResp.okMsg "Item removed from cart.", db')
                  | none => (CartResp.serverError, db)
                else
                  match updateCartItem db itemId quantity with
                  | some r => (CartResp.okItem r.1, r.2)
                  | none => (CartResp.serverError, db)

/-- One Cart Engine mutation, as dispatched by the model layer. -/
inductive CartOp where
  | add (cartId productId : Nat) (quantity : Int)
  | update (itemId : Nat) (quantity : Int)
  | delete (itemId : Nat)
  | clear (cartId : Nat)

/-- Run a Cart Engine mutation; a thrown error rolls the transaction back,
leaving the state unchanged. -/
def applyCartOp (db : CartDb) : CartOp → CartDb
  | CartOp.add c p q =>
      match addItemToCart db c p q with
      | some r => r.2
      | none => db
  | CartOp.update i q =>
      match updateCartItem db i q with
      | some r => r.2
      | none => db
  | CartOp.delete i =>
      match deleteCartItem db i with
      | some db' => db'
      | none => db
  | CartOp.clear c => deleteCartItemsByCartId db c

/-- The Cart Engine invariant: at most one CartItem per
(cartId, productId) pair. -/
def CartInv (db : CartDb) : Prop :=
  db.items.Pairwise
    (fun a b => ¬(a.cartId = b.cartId ∧ a.productId = b.productId))

/-- The five Order.status values of the schema. -/
inductive OrderStatus where
  | PENDING
  | PROCESSING
  | SHIPPED
  | DELIVERED
  | CANCELLED
deriving DecidableEq

/-- The string form of a status, as it appears in error messages. -/
def OrderStatus.toName : OrderStatus → String
  | OrderStatus.PENDING => "PENDING"
  | OrderStatus.PROCESSING => "PROCESSING"
  | OrderStatus.SHIPPED => "SHIPPED"
  | OrderStatus.DELIVERED => "DELIVERED"
  | OrderStatus.CANCELLED => "CANCELLED"

/-- The fixed adjacency table `validTransitions` of the
`PATCH /orders/:id/status` handler (`orderRoutes.ts`). -/
def validTransitions : OrderStatus → List OrderStatus
  | OrderStatus.PENDING => [OrderStatus.PROCESSING, OrderStatus.CANCELLED]
  | OrderStatus.PROCESSING => [OrderStatus.SHIPPED, OrderStatus.CANCELLED]
  | OrderStatus.SHIPPED => [OrderStatus.DELIVERED]
  | OrderStatus.DELIVERED => []
  | OrderStatus.CANCELLED => []

/-- Order row (prisma schema used by `orderRoutes.ts`). -/
structure Order where
  id : Nat
  userId : Nat
  totalAmount : Int
  status : OrderStatus
  shippingAddressId : Nat
  billingAddressId : Nat
  createdAt : Nat
deriving DecidableEq

/-- OrderItem row: a price snapshot times a quantity on an order. -/
structure OrderItem where
  id : Nat
  orderId : Nat
  productId : Nat
  quantity : Int
  price : Int
deriving DecidableEq

/-- Payment row; only its presence for an order matters to the handlers. -/
structure Payment where
  id : Nat
  orderId : Nat
deriving DecidableEq

/-- The order-side database state: Order, OrderItem and Payment tables plus
the OrderItem auto-increment counter. -/
structure OrderDb where
  orders : List Order
  orderItems : List OrderItem
  payments : List Payment
  nextOrderItemId : Nat
deriving DecidableEq

/-- `prisma.order.findUnique({ where: { id, userId } })`. -/
def findOrder (db : OrderDb) (id userId : Nat) : Option Order :=
  db.orders.find? (fun o => o.id == id && o.userId == userId)

/-- The `include: { items: true }` relation of an order:
`prisma.orderItem.findMany({ where: { orderId } })`. -/
def orderItemsOf (db : OrderDb) (orderId : Nat) : List OrderItem :=
  db.orderItems.filter (fun it => it.orderId == orderId)

/-- The reduce in the `POST /orders/:id/items` handler:
`items.reduce((sum, item) => sum + item.price * item.quantity, 0)`. -/
def itemsTotal (items : List OrderItem) : Int :=
  (items.map (fun it => it.price * it.quantity)).foldl (· + ·) 0

/-- HTTP outcome of an order handler. -/
inductive OrderResp where
  | okOrder (o : Order)
  | createdItem (it : OrderItem)
  | noContent
  | notFound (msg : String)
  | badRequest (msg : String)
  | serverError (msg : String)
deriving DecidableEq

/-- `PATCH /orders/:id/status` (`orderRoutes.ts`): load the order for
(id, userId); reject a transition absent from `validTransitions` with a
400 naming the attempted transition; otherwise
`prisma.order.update({ where: { id, userId }, data: { status } })`. -/
def updateStatusHandler (db : OrderDb) (id userId : Nat)
    (status : OrderStatus) : OrderResp × OrderDb :=
  match findOrder db id userId with
  | none => (OrderResp.notFound "Order not found", db)
  | some currentOrder =>
      if status ∉ validTransitions currentOrder.status then
        (OrderResp.badRequest
          ("Invalid status transition from " ++ currentOrder.status.toName
            ++ " to " ++ status.toName), db)
      else
        let upd := fun o : Order =>
          if o.id == id && o.userId == userId then { o with status := status }
          else o
        (OrderResp.okOrder { currentOrder with status := status },
          { db with orders := db.orders.map upd })

/-- `POST /orders/:id/items` (`orderRoutes.ts`).  The source performs its
prisma calls sequentially with no surrounding transaction; `failAt` names
the mutating statement (0 = the orderItem update/create, 1 = the order
totalAmount update) that throws, `none` meaning every statement succeeds.
A throw is caught by the handler's catch block, which answers 500; the
statements already executed stay committed. -/
def addOrderItemRun (failAt : Option Nat) (products : List Product)
    (db : OrderDb) (id userId productId : Nat) (quantity price : Int) :
    OrderResp × OrderDb :=
  match findOrder db id userId with
  | none => (OrderResp.notFound "Order not found", db)
  | some order =>
      if order.status ≠ OrderStatus.PENDING then
        (OrderResp.badRequest
          "Cannot add items to an order that\x27s already being processed", db)
      else
        match products.find? (fun p => p.id == productId) with
        | none => (OrderResp.badRequest "Product not available", db)
        | some product =>
            if product.stock == 0 then
              (OrderResp.badRequest "Product not available", db)
            else if failAt == some 0 then
              (OrderResp.serverError "Failed to add item to order", db)
            else
              let items := orderItemsOf db id
              let r :=
                match items.find? (fun it => it.productId == productId) with
                | some existingItem =>
                    let upd := fun it : OrderItem =>
                      if it.id == existingItem.id then
                        { it with quantity := existingItem.quantity + quantity,
                                  price := price }
                      else it
                    ({ existingItem with
                        quantity := existingItem.quantity + quantity,
                        price := price },
                      { db with orderItems := db.orderItems.map upd })
                | none =>
                    let newItem : OrderItem :=
                      ⟨db.nextOrderItemId, id, productId, quantity, price⟩
                    (newItem,
                      { db with orderItems := db.orderItems ++ [newItem],
                                nextOrderItemId := db.nextOrderItemId + 1 })
              let db1 := r.2
              let newTotal := itemsTotal (orderItemsOf db1 id)
              if failAt == some 1 then
                (OrderResp.serverError "Failed to add item to order", db1)
              else
                let upd := fun o : Order =>
                  if o.id == id then { o with totalAmount := newTotal } else o
                (OrderResp.createdItem r.1,
                  { db1 with orders := db1.orders.map upd })

/-- The `POST /orders/:id/items` handler on the run where no database
statement fails. -/
def addOrderItemHandler (products : List Product) (db : OrderDb)
    (id userId productId : Nat) (quantity price : Int) :
    OrderResp × OrderDb :=
  addOrderItemRun none products db id userId productId quantity price

/-- `DELETE /orders/:id` (`orderRoutes.ts`): only a PENDING order with no
Payment row is cancelled, by setting its status to CANCELLED
(`prisma.order.update({ where: { id }, data: { status: "CANCELLED" } })`);
the row is never deleted. -/
def cancelOrderHandler (db : OrderDb) (id userId : Nat) :
    OrderResp × OrderDb :=
  match findOrder db id userId with
  | none => (OrderResp.notFound "Order not found", db)
  | some order =>
      if order.status ≠ OrderStatus.PENDING then
        (OrderResp.badRequest "Only pending orders can be cancelled", db)
      else
        match db.payments.find? (fun p => p.orderId == id) with
        | some _ =>
            (OrderResp.badRequest
              ("Cannot cancel order with existing payment."
                ++ " Please request a refund."), db)
        | none =>
            let upd := fun o : Order =>
              if o.id == id then { o with status := OrderStatus.CANCELLED }
              else o
            (OrderResp.noContent, { db with orders := db.orders.map upd })

/-- A one-product catalog used to instantiate the theorems. -/
def sampleProducts : List Product := [⟨7, 10, 5⟩]

/-- A PENDING order used to instantiate the theorems. -/
def sampleOrder : Order := ⟨1, 10, 0, OrderStatus.PENDING, 1, 1, 0⟩

/-- An order database holding just `sampleOrder`. -/
def sampleOrderDb : OrderDb := ⟨[sampleOrder], [], [], 100⟩

/-- A PROCESSING order used to instantiate the theorems. -/
def sampleProcOrder : Order := ⟨3, 10, 0, OrderStatus.PROCESSING, 1, 1, 0⟩

/-- An order database holding just `sampleProcOrder`. -/
def sampleProcDb : OrderDb := ⟨[sampleProcOrder], [], [], 100⟩

/-- A cart used to instantiate the theorems. -/
def sampleCart : Cart := ⟨1, 10⟩

/-- A cart item of `sampleCart` for product 7. -/
def sampleCartItem : CartItem := ⟨5, 1, 7, 3⟩

/-- A cart database holding `sampleCart` with `sampleCartItem`. -/
def sampleCartDb : CartDb := ⟨[sampleCart], [sampleCartItem], 2, 6⟩

/-- Fields of an Order other than `status` agree (the frame of
`updateStatus`). -/
def OrderFrameEq (o o' : Order) : Prop :=
  o'.id = o.id ∧ o'.userId = o.userId ∧ o'.totalAmount = o.totalAmount ∧
    o'.shippingAddressId = o.shippingAddressId ∧
    o'.billingAddressId = o.billingAddressId ∧ o'.createdAt = o.createdAt

theorem find?_map_pres {α : Type} (f : α → α) (p : α → Bool)
    (hp : ∀ a, p (f a) = p a) :
    ∀ l : List α, (l.map f).find? p = (l.find? p).map f := by
  intro l
  induction l with
  | nil => rfl
  | cons a t ih =>
      by_cases h : p a = true
      · rw [List.map_cons, List.find?_cons_of_pos _ ((hp a).trans h),
          List.find?_cons_of_pos _ h]
        rfl
      · rw [List.map_cons, List.find?_cons_of_neg _ (by simpa [hp a] using h),
          List.find?_cons_of_neg _ (by simpa using h), ih]

theorem forall₂_map_self {α : Type} (R : α → α → Prop) (f : α → α)
    (h : ∀ a, R a (f a)) : ∀ l : List α, List.Forall₂ R l (l.map f)
  | [] => List.Forall₂.nil
  | a :: t => List.Forall₂.cons (h a) (forall₂_map_self R f h t)

theorem filter_eq_single_of_unique {α : Type} (p : α → Bool) :
    ∀ l : List α, l.Pairwise (fun a b => ¬(p a = true ∧ p b = true)) →
      ∀ a, l.find? p = some a → l.filter p = [a] := by
  intro l
  induction l with
  | nil => intro _ a ha; cases ha
  | cons x t ih =>
      intro hpw a ha
      rcases List.pairwise_cons.1 hpw with ⟨hx, ht⟩
      by_cases hpx : p x = true
      · rw [List.find?_cons_of_pos _ hpx] at ha
        cases ha
        rw [List.filter_cons_of_pos hpx]
        have htnil : t.filter p = [] := by
          refine List.filter_eq_nil_iff.2 (fun b hb hpb => ?_)
          exact hx b hb ⟨hpx, hpb⟩
        rw [htnil]
      · rw [List.find?_cons_of_neg _ (by simpa using hpx)] at ha
        rw [List.filter_cons_of_neg (by simpa using hpx)]
        exact ih ht a ha

theorem find?_append_of_none {α : Type} (p : α → Bool) (l₁ l₂ : List α)
    (h : l₁.find? p = none) : (l₁ ++ l₂).find? p = l₂.find? p := by
  rw [List.find?_append, h, Option.none_or]

/-- Claim C1: with the order for (id, userId) loaded, `updateStatus`
succeeds exactly when the requested status appears in
`validTransitions` at the order's current status; any other pair is
rejected with a 400 whose message names the attempted transition, the
database (hence the order's status) left unchanged. -/
theorem C1_updateStatus_follows_transition_table (db : OrderDb)
    (id userId : Nat) (status : OrderStatus) (cur : Order)
    (hfind : findOrder db id userId = some cur) :
    ((∃ o db', updateStatusHandler db id userId status =
        (OrderResp.okOrder o, db')) ↔ status ∈ validTransitions cur.status)
    ∧ (status ∉ validTransitions cur.status →
        updateStatusHandler db id userId status =
          (OrderResp.badRequest
            ("Invalid status transition from " ++ cur.status.toName
              ++ " to " ++ status.toName), db)) := by
  by_cases h : status ∈ validTransitions cur.status
  · constructor
    · constructor
      · intro _; exact h
      · intro _
        refine ⟨{ cur with status := status },
          { db with orders := db.orders.map (fun o =>
              if o.id == id && o.userId == userId then
                { o with status := status }
              else o) }, ?_⟩
        simp only [updateStatusHandler, hfind, h, not_true_eq_false, if_false]
    · intro hc; exact absurd h hc
  · constructor
    · constructor
      · intro ⟨o, db', hod⟩
        simp only [updateStatusHandler, hfind, h, not_false_eq_true,
          if_true] at hod
        cases hod
      · intro hc; exact absurd hc h
    · intro _
      simp only [updateStatusHandler, hfind, h, not_false_eq_true, if_true]

/-- Witness for C1 at the sample PENDING order and a PROCESSING request. -/
theorem C1_witness :
    ((∃ o db', updateStatusHandler sampleOrderDb 1 10 OrderStatus.PROCESSING =
        (OrderResp.okOrder o, db')) ↔
      OrderStatus.PROCESSING ∈ validTransitions sampleOrder.status)
    ∧ (OrderStatus.PROCESSING ∉ validTransitions sampleOrder.status →
        updateStatusHandler sampleOrderDb 1 10 OrderStatus.PROCESSING =
          (OrderResp.badRequest
            ("Invalid status transition from " ++ sampleOrder.status.toName
              ++ " to " ++ OrderStatus.PROCESSING.toName), sampleOrderDb)) :=
  C1_updateStatus_follows_transition_table sampleOrderDb 1 10
    OrderStatus.PROCESSING sampleOrder rfl

/-- Claim C10: whenever `updateStatus` succeeds, only the status field of
the matched order changes: the OrderItem and Payment tables are untouched
and every order row keeps its id, userId, totalAmount, address ids and
createdAt. -/
theorem C10_updateStatus_frame (db db' : OrderDb) (id userId : Nat)
    (status : OrderStatus) (o : Order)
    (hsucc : updateStatusHandler db id userId status =
      (OrderResp.okOrder o, db')) :
    db'.orderItems = db.orderItems ∧ db'.payments = db.payments ∧
      db'.nextOrderItemId = db.nextOrderItemId ∧
      List.Forall₂ OrderFrameEq db.orders db'.orders := by
  unfold updateStatusHandler at hsucc
  cases hcur : findOrder db id userId with
  | none => rw [hcur] at hsucc; cases hsucc
  | some cur =>
      rw [hcur] at hsucc
      by_cases h : status ∈ validTransitions cur.status
      · simp only [h, not_true_eq_false, if_false] at hsucc
        have hdb : db' =
            { db with orders := db.orders.map (fun a =>
                if a.id == id && a.userId == userId then
                  { a with status := status } else a) } :=
          (Prod.mk.injEq _ _ _ _ ▸ hsucc).2.symm
        subst hdb
        refine ⟨rfl, rfl, rfl, ?_⟩
        refine forall₂_map_self OrderFrameEq _ (fun a => ?_) db.orders
        by_cases ha : a.id == id && a.userId == userId
        · simp only [ha, if_true]
          exact ⟨rfl, rfl, rfl, rfl, rfl, rfl⟩
        · simp only [ha, if_false]
          exact ⟨rfl, rfl, rfl, rfl, rfl, rfl⟩
      · simp only [h, not_false_eq_true, if_true] at hsucc
        cases hsucc

/-- Witness for C10 at the sample order moved from PENDING to PROCESSING. -/
theorem C10_witness :
    sampleOrderDb.orders.map (fun a =>
        if a.id == 1 && a.userId == 10 then
          { a with status := OrderStatus.PROCESSING } else a) =
      [{ sampleOrder with status := OrderStatus.PROCESSING }]
    ∧ ({ sampleOrderDb with orders := [{ sampleOrder with
          status := OrderStatus.PROCESSING }] } : OrderDb).orderItems =
        sampleOrderDb.orderItems
    ∧ List.Forall₂ OrderFrameEq sampleOrderDb.orders
        ({ sampleOrderDb with orders := [{ sampleOrder with
            status := OrderStatus.PROCESSING }] } : OrderDb).orders := by
  refine ⟨by decide, ?_, ?_⟩
  · exact (C10_updateStatus_frame sampleOrderDb _ 1 10 OrderStatus.PROCESSING
      { sampleOrder with status := OrderStatus.PROCESSING } rfl).1
  · exact (C10_updateStatus_frame sampleOrderDb _ 1 10 OrderStatus.PROCESSING
      { sampleOrder with status := OrderStatus.PROCESSING } rfl).2.2.2

/-- Claim C5: `addOrderItem` on an order whose status is not PENDING is
rejected with the 400 state error and the database — in particular the
order's item set — is unchanged. -/
theorem C5_addOrderItem_requires_pending (products : List Product)
    (db : OrderDb) (id userId productId : Nat) (quantity price : Int)
    (order : Order) (hfind : findOrder db id userId = some order)
    (hst : order.status ≠ OrderStatus.PENDING) :
    addOrderItemHandler products db id userId productId quantity price =
      (OrderResp.badRequest
        "Cannot add items to an order that\x27s already being processed",
        db) := by
  simp only [addOrderItemHandler, addOrderItemRun, hfind]
  rw [if_pos hst]

/-- Witness for C5 at the sample PROCESSING order. -/
theorem C5_witness :
    addOrderItemHandler sampleProducts sampleProcDb 3 10 7 2 10 =
      (OrderResp.badRequest
        "Cannot add items to an order that\x27s already being processed",
        sampleProcDb) :=
  C5_addOrderItem_requires_pending sampleProducts sampleProcDb 3 10 7 2 10
    sampleProcOrder rfl (by decide)

/-- Claim C6: with the order for (id, userId) loaded, `cancelOrder`
succeeds (204) exactly when the order is PENDING and no Payment row exists
for it, in which case the order row is kept (same row count) with status
CANCELLED and the items untouched; a non-PENDING order or an existing
Payment row is rejected with the corresponding 400 message, the database
unchanged. -/
theorem C6_cancelOrder_guards (db : OrderDb) (id userId : Nat)
    (order : Order) (hfind : findOrder db id userId = some order) :
    ((cancelOrderHandler db id userId).1 = OrderResp.noContent ↔
        order.status = OrderStatus.PENDING ∧
          db.payments.find? (fun p => p.orderId == id) = none)
    ∧ (order.status = OrderStatus.PENDING →
        db.payments.find? (fun p => p.orderId == id) = none →
        findOrder (cancelOrderHandler db id userId).2 id userId =
            some { order with status := OrderStatus.CANCELLED } ∧
          (cancelOrderHandler db id userId).2.orders.length =
            db.orders.length ∧
          (cancelOrderHandler db id userId).2.orderItems = db.orderItems)
    ∧ (order.status ≠ OrderStatus.PENDING →
        cancelOrderHandler db id userId =
          (OrderResp.badRequest "Only pending orders can be cancelled", db))
    ∧ (order.status = OrderStatus.PENDING →
        (db.payments.find? (fun p => p.orderId == id)).isSome = true →
        cancelOrderHandler db id userId =
          (OrderResp.badRequest
            ("Cannot cancel order with existing payment."
              ++ " Please request a refund."), db)) := by
  have horder := List.find?_some hfind
  have hid : (order.id == id) = true := by
    by_contra hc
    rw [Bool.not_eq_true] at hc
    rw [hc, Bool.false_and] at horder
    cases horder
  have hideq : order.id = id := by simpa using hid
  by_cases hp : order.status = OrderStatus.PENDING
  · cases hpay : db.payments.find? (fun p => p.orderId == id) with
    | some pay =>
        have hred : cancelOrderHandler db id userId =
            (OrderResp.badRequest
              ("Cannot cancel order with existing payment."
                ++ " Please request a refund."), db) := by
          simp only [cancelOrderHandler, hfind, hpay]
          rw [if_neg (not_not_intro hp)]
        refine ⟨?_, ?_, ?_, ?_⟩
        · rw [hred]; simp
        · intro _ hnone; cases hnone
        · intro hne; exact absurd hp hne
        · intro _ _; exact hred
    | none =>
        have hpres : ∀ a : Order,
            ((if a.id == id then { a with status := OrderStatus.CANCELLED }
                else a).id == id &&
              (if a.id == id then { a with status := OrderStatus.CANCELLED }
                else a).userId == userId) =
              (a.id == id && a.userId == userId) := by
          intro a
          by_cases ha : a.id == id <;> simp [ha]
        have hred : cancelOrderHandler db id userId =
            (OrderResp.noContent,
              { db with orders := db.orders.map (fun o =>
                  if o.id == id then { o with status := OrderStatus.CANCELLED }
                  else o) }) := by
          simp only [cancelOrderHandler, hfind, hpay]
          rw [if_neg (not_not_intro hp)]
        refine ⟨?_, ?_, ?_, ?_⟩
        · rw [hred]; simp [hp, hpay]
        · intro _ _
          rw [hred]
          refine ⟨?_, by simp, rfl⟩
          simp only [findOrder]
          rw [find?_map_pres _ _ hpres db.orders]
          show Option.map _ (findOrder db id userId) = _
          rw [hfind]
          simp [hideq]
        · intro hne; exact absurd hp hne
        · intro _ hsome; simp at hsome
  · have hred : cancelOrderHandler db id userId =
        (OrderResp.badRequest "Only pending orders can be cancelled", db) := by
      simp only [cancelOrderHandler, hfind]
      rw [if_pos hp]
    refine ⟨?_, ?_, ?_, ?_⟩
    · rw [hred]; simp [hp]
    · intro hpend _; exact absurd hpend hp
    · intro _; exact hred
    · intro hpend _; exact absurd hpend hp

/-- Witness for C6 at the sample PENDING order with no payment. -/
theorem C6_witness :
    (((cancelOrderHandler sampleOrderDb 1 10).1 = OrderResp.noContent ↔
        sampleOrder.status = OrderStatus.PENDING ∧
          sampleOrderDb.payments.find? (fun p => p.orderId == 1) = none)
    ∧ (sampleOrder.status = OrderStatus.PENDING →
        sampleOrderDb.payments.find? (fun p => p.orderId == 1) = none →
        findOrder (cancelOrderHandler sampleOrderDb 1 10).2 1 10 =
            some { sampleOrder with status := OrderStatus.CANCELLED } ∧
          (cancelOrderHandler sampleOrderDb 1 10).2.orders.length =
            sampleOrderDb.orders.length ∧
          (cancelOrderHandler sampleOrderDb 1 10).2.orderItems =
            sampleOrderDb.orderItems)
    ∧ (sampleOrder.status ≠ OrderStatus.PENDING →
        cancelOrderHandler sampleOrderDb 1 10 =
          (OrderResp.badRequest "Only pending orders can be cancelled",
            sampleOrderDb))
    ∧ (sampleOrder.status = OrderStatus.PENDING →
        (sampleOrderDb.payments.find? (fun p => p.orderId == 1)).isSome =
          true →
        cancelOrderHandler sampleOrderDb 1 10 =
          (OrderResp.badRequest
            ("Cannot cancel order with existing payment."
              ++ " Please request a refund."), sampleOrderDb))) :=
  C6_cancelOrder_guards sampleOrderDb 1 10 sampleOrder rfl

/-- Counterexample to claim C2: run `POST /orders/:id/items` on the sample
PENDING order with the totalAmount persist step failing.  The handler
answers 500, yet the new OrderItem is left committed while the order's
totalAmount (0) does not reflect it (the items sum to 20): a partial state
the claim says is never left behind. -/
theorem C2_counterexample :
    (addOrderItemRun (some 1) sampleProducts sampleOrderDb 1 10 7 2 10).1 =
        OrderResp.serverError "Failed to add item to order"
    ∧ orderItemsOf
        (addOrderItemRun (some 1) sampleProducts sampleOrderDb 1 10 7 2 10).2
        1 = [⟨100, 1, 7, 2, 10⟩]
    ∧ findOrder
        (addOrderItemRun (some 1) sampleProducts sampleOrderDb 1 10 7 2 10).2
        1 10 = some sampleOrder
    ∧ sampleOrder.totalAmount ≠
        itemsTotal (orderItemsOf
          (addOrderItemRun (some 1) sampleProducts sampleOrderDb 1 10 7 2 10).2
          1) := by
  refine ⟨rfl, rfl, rfl, by decide⟩

/-- Claim C2 (amended): the writes of `addOrderItem` are sequential,
non-transactional statements.  When every statement succeeds both writes
commit, but when the totalAmount persist (the second write) fails after
the item insert succeeded on a PENDING order with an available product and
no pre-existing item for it, the handler answers 500 with the inserted
OrderItem still committed and the order rows — hence totalAmount —
unchanged: a partial state remains. -/
theorem C2_addOrderItem_partial_commit (products : List Product)
    (db : OrderDb) (id userId productId : Nat) (quantity price : Int)
    (order : Order) (product : Product)
    (hfind : findOrder db id userId = some order)
    (hpend : order.status = OrderStatus.PENDING)
    (hprod : products.find? (fun p => p.id == productId) = some product)
    (hstock : product.stock ≠ 0)
    (hnone : (orderItemsOf db id).find?
      (fun it => it.productId == productId) = none) :
    addOrderItemRun (some 1) products db id userId productId quantity price =
      (OrderResp.serverError "Failed to add item to order",
        { db with
            orderItems := db.orderItems ++
              [⟨db.nextOrderItemId, id, productId, quantity, price⟩],
            nextOrderItemId := db.nextOrderItemId + 1 }) := by
  have hsb : (product.stock == 0) = false := by
    simpa using hstock
  simp only [addOrderItemRun, hfind, hpend, hprod, hsb, hnone, ne_eq,
    not_true_eq_false, if_false, Bool.false_eq_true]
  rfl

/-- Witness for the amended C2 theorem at the sample inputs. -/
theorem C2_amended_witness :
    addOrderItemRun (some 1) sampleProducts sampleOrderDb 1 10 7 2 10 =
      (OrderResp.serverError "Failed to add item to order",
        { sampleOrderDb with
            orderItems := sampleOrderDb.orderItems ++
              [⟨sampleOrderDb.nextOrderItemId, 1, 7, 2, 10⟩],
            nextOrderItemId := sampleOrderDb.nextOrderItemId + 1 }) :=
  C2_addOrderItem_partial_commit sampleProducts sampleOrderDb 1 10 7 2 10
    sampleOrder ⟨7, 10, 5⟩ rfl rfl rfl (by decide) rfl

theorem cartInv_pair_unique (db : CartDb) (hinv : CartInv db)
    (cartId productId : Nat) :
    db.items.Pairwise (fun a b =>
      ¬((a.cartId == cartId && a.productId == productId) = true ∧
        (b.cartId == cartId && b.productId == productId) = true)) := by
  refine hinv.imp ?_
  intro a b hab hpair
  apply hab
  obtain ⟨ha, hb⟩ := hpair
  simp only [Bool.and_eq_true, beq_iff_eq] at ha hb
  exact ⟨ha.1.trans hb.1.symm, ha.2.trans hb.2.symm⟩

theorem pair_filter_singleton (db : CartDb) (cartId productId : Nat)
    (ex : CartItem) (hinv : CartInv db)
    (hex : findCartItemByCartIdAndProductId db cartId productId = some ex) :
    db.items.filter
        (fun x => x.cartId == cartId && x.productId == productId) = [ex] :=
  filter_eq_single_of_unique _ db.items
    (cartInv_pair_unique db hinv cartId productId) ex hex

/-- Claim C8: when the cart item belongs to the caller's cart and the
requested quantity strictly exceeds the product's stock,
`updateItemQuantity` is rejected with the 400 stock message and the
database — hence the stored CartItem quantity — is unchanged. -/
theorem C8_updateItemQuantity_stock_guard (products : List Product)
    (db : CartDb) (userId itemId : Nat) (quantity : Int)
    (cart : Cart) (item : CartItem) (product : Product)
    (hcart : findCartByUserId db userId = some cart)
    (hitem : findCartItemById db itemId = some item)
    (hown : item.cartId = cart.id)
    (hprod : products.find? (fun p => p.id == item.productId) = some product)
    (hq : (product.stock : Int) < quantity) :
    updateCartItemHandler products db userId itemId quantity =
      (CartResp.badRequest
        ("Cannot update to " ++ toString quantity ++ " items. Only "
          ++ toString product.stock ++ " are in stock."), db) := by
  have hne : (item.cartId != cart.id) = false := by
    simp [hown]
  simp only [updateCartItemHandler, hcart, hitem, hprod, hne,
    Bool.false_eq_true, if_false]
  rw [if_pos hq]

/-- Witness for C8: requesting 9 of a product with stock 5. -/
theorem C8_witness :
    updateCartItemHandler sampleProducts sampleCartDb 10 5 9 =
      (CartResp.badRequest
        ("Cannot update to " ++ toString (9 : Int) ++ " items. Only "
          ++ toString (5 : Nat) ++ " are in stock."), sampleCartDb) :=
  C8_updateItemQuantity_stock_guard sampleProducts sampleCartDb 10 5 9
    sampleCart sampleCartItem ⟨7, 10, 5⟩ rfl rfl rfl rfl (by decide)

/-- Claim C7: when a CartItem for (cartId, productId) pre-exists,
`addItemToCart` with a non-positive quantity deletes it — returning the
no-item outcome rather than an error — and the cart afterwards shows no
entry for that product. -/
theorem C7_nonpositive_quantity_removes_item (db : CartDb)
    (cartId productId : Nat) (q : Int) (ex : CartItem) (hinv : CartInv db)
    (hex : findCartItemByCartIdAndProductId db cartId productId = some ex)
    (hq : q ≤ 0) :
    ∃ db', addItemToCart db cartId productId q = some (none, db')
      ∧ (findCartItemsByCartId db' cartId).filter
          (fun x => x.productId == productId) = [] := by
  have hmem := List.mem_of_find?_eq_some hex
  have hany : db.items.any (fun it => it.id == ex.id) = true :=
    List.any_eq_true.mpr ⟨ex, hmem, by simp⟩
  have hdel : deleteCartItem db ex.id =
      some { db with items := db.items.filter (fun it => it.id != ex.id) } := by
    unfold deleteCartItem
    rw [if_pos hany]
  refine ⟨{ db with items := db.items.filter (fun it => it.id != ex.id) },
    ?_, ?_⟩
  · simp only [addItemToCart, hex]
    rw [if_pos hq, hdel]
    rfl
  · have hpairs := pair_filter_singleton db cartId productId ex hinv hex
    simp only [findCartItemsByCartId]
    rw [List.filter_filter, List.filter_filter]
    refine List.filter_eq_nil_iff.mpr ?_
    intro a ha hcontra
    simp only [Bool.and_eq_true] at hcontra
    obtain ⟨⟨hpid, hcid⟩, hid⟩ := hcontra
    have hapair : a ∈ db.items.filter
        (fun x => x.cartId == cartId && x.productId == productId) :=
      List.mem_filter.mpr ⟨ha, by rw [Bool.and_eq_true]; exact ⟨hcid, hpid⟩⟩
    rw [hpairs, List.mem_singleton] at hapair
    subst hapair
    simp at hid

/-- Witness for C7: removing the pre-existing sample item with quantity 0. -/
theorem C7_witness :
    ∃ db', addItemToCart sampleCartDb 1 7 0 = some (none, db')
      ∧ (findCartItemsByCartId db' 1).filter
          (fun x => x.productId == 7) = [] :=
  C7_nonpositive_quantity_removes_item sampleCartDb 1 7 0 sampleCartItem
    (by unfold CartInv; decide) rfl (by decide)

theorem cartInv_filter (db : CartDb) (r : CartItem → Bool)
    (hinv : CartInv db) : CartInv { db with items := db.items.filter r } :=
  List.Pairwise.sublist (List.filter_sublist _) hinv

theorem cartInv_map_fields (db : CartDb) (f : CartItem → CartItem)
    (hf : ∀ a, (f a).cartId = a.cartId ∧ (f a).productId = a.productId)
    (hinv : CartInv db) : CartInv { db with items := db.items.map f } := by
  unfold CartInv at hinv ⊢
  rw [List.pairwise_map]
  refine hinv.imp ?_
  intro a b hab hfab
  exact hab ⟨((hf a).1.symm.trans hfab.1).trans (hf b).1,
    ((hf a).2.symm.trans hfab.2).trans (hf b).2⟩

theorem cartInv_append_new (db : CartDb) (new : CartItem)
    (habs : ∀ a ∈ db.items,
      ¬(a.cartId = new.cartId ∧ a.productId = new.productId))
    (hinv : CartInv db) : CartInv { db with items := db.items ++ [new] } := by
  unfold CartInv at hinv ⊢
  rw [List.pairwise_append]
  refine ⟨hinv, List.pairwise_singleton _ _, ?_⟩
  intro a ha b hb
  rw [List.mem_singleton] at hb
  subst hb
  exact habs a ha

/-- Claim C9: every Cart Engine mutation — add, update, delete, clear —
preserves the invariant that a cart holds at most one CartItem per
(cartId, productId) pair. -/
theorem C9_cart_engine_preserves_invariant (db : CartDb) (op : CartOp)
    (hinv : CartInv db) : CartInv (applyCartOp db op) := by
  cases op with
  | add c p q =>
      simp only [applyCartOp]
      cases hex : findCartItemByCartIdAndProductId db c p with
      | some ex =>
          by_cases hq : q ≤ 0
          · simp only [addItemToCart, hex]
            rw [if_pos hq]
            unfold deleteCartItem
            by_cases hany : db.items.any (fun it => it.id == ex.id) = true
            · rw [if_pos hany]
              exact cartInv_filter db _ hinv
            · rw [if_neg hany]
              exact hinv
          · simp only [addItemToCart, hex]
            rw [if_neg hq]
            simp only [updateCartItem, findCartItemById]
            cases hfb : (db.items.map (fun it =>
                if it.id == ex.id then { it with quantity := q }
                else it)).find? (fun it => it.id == ex.id) with
            | some b =>
                refine cartInv_map_fields db _ (fun a => ?_) hinv
                by_cases ha : a.id == ex.id <;> simp [ha]
            | none =>
                exact hinv
      | none =>
          by_cases hq : q ≤ 0
          · simp only [addItemToCart, hex]
            rw [if_pos hq]
            exact hinv
          · simp only [addItemToCart, hex]
            rw [if_neg hq]
            refine cartInv_append_new db _ (fun a ha hpair => ?_) hinv
            have := List.find?_eq_none.mp hex a ha
            simp only [Bool.and_eq_true, beq_iff_eq, not_and] at this
            exact this hpair.1 hpair.2
  | update i q =>
      simp only [applyCartOp, updateCartItem, findCartItemById]
      cases hfb : (db.items.map (fun it =>
          if it.id == i then { it with quantity := q }
          else it)).find? (fun it => it.id == i) with
      | some b =>
          refine cartInv_map_fields db _ (fun a => ?_) hinv
          by_cases ha : a.id == i <;> simp [ha]
      | none =>
          exact hinv
  | delete i =>
      simp only [applyCartOp]
      unfold deleteCartItem
      by_cases hany : db.items.any (fun it => it.id == i) = true
      · rw [if_pos hany]
        exact cartInv_filter db _ hinv
      · rw [if_neg hany]
        exact hinv
  | clear c =>
      simp only [applyCartOp, deleteCartItemsByCartId]
      exact cartInv_filter db _ hinv

/-- Witness for C9: the invariant holds on the sample cart and is kept by
an add that overwrites the existing item. -/
theorem C9_witness :
    CartInv sampleCartDb ∧
      CartInv (applyCartOp sampleCartDb (CartOp.add 1 7 2)) :=
  ⟨by unfold CartInv; decide,
    C9_cart_engine_preserves_invariant sampleCartDb (CartOp.add 1 7 2)
      (by unfold CartInv; decide)⟩

/-- Claim C3: for a user with an existing cart and a product in the
catalog, a valid quantity 0 < q ≤ stock makes `addItem` succeed and the
cart afterwards holds exactly one CartItem for that product, its quantity
equal to q — an overwrite of any pre-existing quantity, not a sum. -/
theorem C3_addItem_overwrites_quantity (products : List Product)
    (db : CartDb) (userId productId : Nat) (q : Int) (cart : Cart)
    (product : Product) (hcart : findCartByUserId db userId = some cart)
    (hinv : CartInv db)
    (hprod : products.find? (fun p => p.id == productId) = some product)
    (hq : 0 < q) (hstock : q ≤ (product.stock : Int)) :
    ∃ r db', addItemToCartHandler products db userId productId q =
        (CartResp.created r, db')
      ∧ ∃ it, (findCartItemsByCartId db' cart.id).filter
            (fun x => x.productId == productId) = [it]
          ∧ it.quantity = q := by
  have hnotgt : ¬((product.stock : Int) < q) := not_lt.mpr hstock
  have hnotle : ¬(q ≤ 0) := not_le.mpr hq
  cases hex : findCartItemByCartIdAndProductId db cart.id productId with
  | some ex =>
      have hmem := List.mem_of_find?_eq_some hex
      have hpairs := pair_filter_singleton db cart.id productId ex hinv hex
      have hpres : ∀ a : CartItem,
          (((fun it : CartItem =>
              if it.id == ex.id then { it with quantity := q }
              else it) a).id == ex.id) = (a.id == ex.id) := by
        intro a
        by_cases ha : a.id == ex.id <;> simp [ha]
      have hfid : (db.items.map (fun it : CartItem =>
            if it.id == ex.id then { it with quantity := q }
            else it)).find? (fun it => it.id == ex.id) =
          Option.map (fun it : CartItem =>
            if it.id == ex.id then { it with quantity := q }
            else it) (db.items.find? (fun it => it.id == ex.id)) :=
        find?_map_pres _ _ hpres db.items
      obtain ⟨b0, hb0⟩ : ∃ b0,
          db.items.find? (fun it => it.id == ex.id) = some b0 := by
        cases hfb : db.items.find? (fun it => it.id == ex.id) with
        | some b0 => exact ⟨b0, rfl⟩
        | none =>
            have := List.find?_eq_none.mp hfb ex hmem
            simp at this
      have haddeq : addItemToCart db cart.id productId q =
          some (some (if b0.id == ex.id then { b0 with quantity := q }
              else b0),
            { db with items := db.items.map (fun it : CartItem =>
                if it.id == ex.id then { it with quantity := q }
                else it) }) := by
        simp only [addItemToCart, hex]
        rw [if_neg hnotle]
        simp only [updateCartItem, findCartItemById]
        rw [hfid, hb0]
        rfl
      refine ⟨some (if b0.id == ex.id then { b0 with quantity := q }
          else b0),
        { db with items := db.items.map (fun it : CartItem =>
            if it.id == ex.id then { it with quantity := q }
            else it) }, ?_, ?_⟩
      · simp only [addItemToCartHandler, hprod]
        rw [if_neg hnotgt]
        simp only [getOrCreateCart, hcart]
        rw [haddeq]
      · refine ⟨{ ex with quantity := q }, ?_, rfl⟩
        simp only [findCartItemsByCartId]
        rw [List.filter_filter]
        rw [List.filter_congr (fun a _ => Bool.and_comm
          (a.productId == productId) (a.cartId == cart.id))]
        rw [List.filter_map]
        have hcomp : ∀ a ∈ db.items,
            ((fun x : CartItem =>
                x.cartId == cart.id && x.productId == productId) ∘
              (fun it : CartItem =>
                if it.id == ex.id then { it with quantity := q }
                else it)) a =
            (a.cartId == cart.id && a.productId == productId) := by
          intro a _
          by_cases ha : a.id = ex.id <;> simp [ha]
        rw [List.filter_congr hcomp, hpairs]
        simp
  | none =>
      have haddeq : addItemToCart db cart.id productId q =
          some (some (⟨db.nextItemId, cart.id, productId, q⟩ : CartItem),
            { db with
                items := db.items ++
                  [⟨db.nextItemId, cart.id, productId, q⟩],
                nextItemId := db.nextItemId + 1 }) := by
        simp only [addItemToCart, hex]
        rw [if_neg hnotle]
        rfl
      refine ⟨some ⟨db.nextItemId, cart.id, productId, q⟩,
        { db with
            items := db.items ++ [⟨db.nextItemId, cart.id, productId, q⟩],
            nextItemId := db.nextItemId + 1 }, ?_, ?_⟩
      · simp only [addItemToCartHandler, hprod]
        rw [if_neg hnotgt]
        simp only [getOrCreateCart, hcart]
        rw [haddeq]
      · refine ⟨⟨db.nextItemId, cart.id, productId, q⟩, ?_, rfl⟩
        simp only [findCartItemsByCartId]
        rw [List.filter_filter]
        rw [List.filter_congr (fun a _ => Bool.and_comm
          (a.productId == productId) (a.cartId == cart.id))]
        rw [List.filter_append]
        have hnil : db.items.filter (fun x : CartItem =>
            x.cartId == cart.id && x.productId == productId) = [] := by
          refine List.filter_eq_nil_iff.mpr ?_
          intro a ha
          exact fun hc => (List.find?_eq_none.mp hex a ha) hc
        rw [hnil]
        simp

/-- Witness for C3: overwriting the sample item (quantity 3) with
quantity 2. -/
theorem C3_witness :
    ∃ r db', addItemToCartHandler sampleProducts sampleCartDb 10 7 2 =
        (CartResp.created r, db')
      ∧ ∃ it, (findCartItemsByCartId db' sampleCart.id).filter
            (fun x => x.productId == 7) = [it]
          ∧ it.quantity = 2 :=
  C3_addItem_overwrites_quantity sampleProducts sampleCartDb 10 7 2
    sampleCart ⟨7, 10, 5⟩ rfl (by unfold CartInv; decide) rfl (by decide)
    (by decide)

theorem addOrderItemRun_none_create (products : List Product) (db : OrderDb)
    (id userId productId : Nat) (quantity price : Int)
    (order : Order) (product : Product)
    (hfind : findOrder db id userId = some order)
    (hpend : order.status = OrderStatus.PENDING)
    (hprod : products.find? (fun p => p.id == productId) = some product)
    (hstock : product.stock ≠ 0)
    (hnone : (orderItemsOf db id).find?
      (fun it => it.productId == productId) = none) :
    addOrderItemRun none products db id userId productId quantity price =
      (OrderResp.createdItem
          ⟨db.nextOrderItemId, id, productId, quantity, price⟩,
        { orders := db.orders.map (fun o =>
            if o.id == id then
              { o with totalAmount := itemsTotal (orderItemsOf
                  { db with
                      orderItems := db.orderItems ++
                        [⟨db.nextOrderItemId, id, productId, quantity,
                          price⟩],
                      nextOrderItemId := db.nextOrderItemId + 1 } id) }
            else o),
          orderItems := db.orderItems ++
            [⟨db.nextOrderItemId, id, productId, quantity, price⟩],
          payments := db.payments,
          nextOrderItemId := db.nextOrderItemId + 1 }) := by
  have hsb : (product.stock == 0) = false := by
    simpa using hstock
  simp only [addOrderItemRun, hfind, hpend, hprod, hsb, hnone, ne_eq,
    not_true_eq_false, if_false, Bool.false_eq_true]
  rfl

theorem addOrderItemRun_none_merge (products : List Product) (db : OrderDb)
    (id userId productId : Nat) (quantity price : Int)
    (order : Order) (product : Product) (existingItem : OrderItem)
    (hfind : findOrder db id userId = some order)
    (hpend : order.status = OrderStatus.PENDING)
    (hprod : products.find? (fun p => p.id == productId) = some product)
    (hstock : product.stock ≠ 0)
    (hsome : (orderItemsOf db id).find?
      (fun it => it.productId == productId) = some existingItem) :
    addOrderItemRun none products db id userId productId quantity price =
      (OrderResp.createdItem
          { existingItem with
              quantity := existingItem.quantity + quantity, price := price },
        { orders := db.orders.map (fun o =>
            if o.id == id then
              { o with totalAmount := itemsTotal (orderItemsOf
                  { db with orderItems := db.orderItems.map (fun it =>
                      if it.id == existingItem.id then
                        { it with
                            quantity := existingItem.quantity + quantity,
                            price := price }
                      else it) } id) }
            else o),
          orderItems := db.orderItems.map (fun it =>
            if it.id == existingItem.id then
              { it with
                  quantity := existingItem.quantity + quantity,
                  price := price }
            else it),
          payments := db.payments,
          nextOrderItemId := db.nextOrderItemId }) := by
  have hsb : (product.stock == 0) = false := by
    simpa using hstock
  simp only [addOrderItemRun, hfind, hpend, hprod, hsb, hsome, ne_eq,
    not_true_eq_false, if_false, Bool.false_eq_true]
  rfl

theorem map_eq_self_of_eq {α : Type} (f : α → α) :
    ∀ l : List α, (∀ a ∈ l, f a = a) → l.map f = l := by
  intro l h
  induction l with
  | nil => rfl
  | cons a t ih =>
      rw [List.map_cons, h a (List.mem_cons_self a t),
        ih (fun b hb => h b (List.mem_cons_of_mem a hb))]

theorem find?_order_id_beq (db : OrderDb) (id userId : Nat) (order : Order)
    (hfind : findOrder db id userId = some order) :
    (order.id == id) = true := by
  have horder := List.find?_some hfind
  by_contra hc
  rw [Bool.not_eq_true] at hc
  rw [hc, Bool.false_and] at horder
  cases horder

theorem find?_orders_map_total (l : List Order) (id userId : Nat) (T : Int) :
    (l.map (fun o => if o.id == id then { o with totalAmount := T }
        else o)).find? (fun o => o.id == id && o.userId == userId) =
      (l.find? (fun o => o.id == id && o.userId == userId)).map
        (fun o => if o.id == id then { o with totalAmount := T } else o) := by
  refine find?_map_pres _ _ (fun a => ?_) l
  by_cases ha : a.id == id <;> simp [ha]

theorem addOrderItem_create_post (products : List Product) (db : OrderDb)
    (id userId productId : Nat) (quantity price : Int)
    (order : Order) (product : Product)
    (hfind : findOrder db id userId = some order)
    (hpend : order.status = OrderStatus.PENDING)
    (hprod : products.find? (fun p => p.id == productId) = some product)
    (hstock : product.stock ≠ 0)
    (hnone : (orderItemsOf db id).find?
      (fun it => it.productId == productId) = none) :
    (addOrderItemRun none products db id userId productId quantity
        price).2.orderItems =
      db.orderItems ++ [⟨db.nextOrderItemId, id, productId, quantity, price⟩]
    ∧ ∃ o1, findOrder (addOrderItemRun none products db id userId productId
          quantity price).2 id userId = some o1
        ∧ o1.status = order.status
        ∧ o1.totalAmount = itemsTotal (orderItemsOf
            (addOrderItemRun none products db id userId productId quantity
              price).2 id) := by
  have h1 := addOrderItemRun_none_create products db id userId productId
    quantity price order product hfind hpend hprod hstock hnone
  have hoid := find?_order_id_beq db id userId order hfind
  have hfind' : db.orders.find?
      (fun o => o.id == id && o.userId == userId) = some order := hfind
  refine ⟨by rw [h1], ?_⟩
  rw [h1]
  refine ⟨{ order with totalAmount := itemsTotal (orderItemsOf
      { db with
          orderItems := db.orderItems ++
            [⟨db.nextOrderItemId, id, productId, quantity, price⟩],
          nextOrderItemId := db.nextOrderItemId + 1 } id) }, ?_, rfl, rfl⟩
  have hoideq : order.id = id := by simpa using hoid
  simp only [findOrder]
  rw [find?_orders_map_total db.orders id userId _, hfind']
  simp [hoideq]

theorem addOrderItem_merge_post (products : List Product) (db : OrderDb)
    (id userId productId : Nat) (quantity price : Int)
    (order : Order) (product : Product) (existingItem : OrderItem)
    (hfind : findOrder db id userId = some order)
    (hpend : order.status = OrderStatus.PENDING)
    (hprod : products.find? (fun p => p.id == productId) = some product)
    (hstock : product.stock ≠ 0)
    (hsome : (orderItemsOf db id).find?
      (fun it => it.productId == productId) = some existingItem) :
    (addOrderItemRun none products db id userId productId quantity
        price).2.orderItems =
      db.orderItems.map (fun it =>
        if it.id == existingItem.id then
          { it with
              quantity := existingItem.quantity + quantity,
              price := price }
        else it)
    ∧ ∃ o2, findOrder (addOrderItemRun none products db id userId productId
          quantity price).2 id userId = some o2
        ∧ o2.status = order.status
        ∧ o2.totalAmount = itemsTotal (orderItemsOf
            (addOrderItemRun none products db id userId productId quantity
              price).2 id) := by
  have h1 := addOrderItemRun_none_merge products db id userId productId
    quantity price order product existingItem hfind hpend hprod hstock hsome
  have hoid := find?_order_id_beq db id userId order hfind
  have hfind' : db.orders.find?
      (fun o => o.id == id && o.userId == userId) = some order := hfind
  refine ⟨by rw [h1], ?_⟩
  rw [h1]
  refine ⟨{ order with totalAmount := itemsTotal (orderItemsOf
      { db with orderItems := db.orderItems.map (fun it =>
          if it.id == existingItem.id then
            { it with
                quantity := existingItem.quantity + quantity,
                price := price }
          else it) } id) }, ?_, rfl, rfl⟩
  have hoideq : order.id = id := by simpa using hoid
  simp only [findOrder]
  rw [find?_orders_map_total db.orders id userId _, hfind']
  simp [hoideq]

/-- Claim C4: on a PENDING order with an available product and no
pre-existing OrderItem for it, two consecutive `addOrderItem` calls with
the same productId leave exactly one OrderItem for that product, its
quantity the sum of the two requested quantities and its price the
last-supplied one; after each call the order's totalAmount equals the sum
over its items of price × quantity. -/
theorem C4_addOrderItem_sums_quantities (products : List Product)
    (db : OrderDb) (id userId productId : Nat) (q1 p1 q2 p2 : Int)
    (order : Order) (product : Product)
    (hfind : findOrder db id userId = some order)
    (hpend : order.status = OrderStatus.PENDING)
    (hprod : products.find? (fun p => p.id == productId) = some product)
    (hstock : product.stock ≠ 0)
    (hnone : (orderItemsOf db id).find?
      (fun it => it.productId == productId) = none)
    (hids : ∀ it ∈ db.orderItems, it.id < db.nextOrderItemId) :
    ((addOrderItemHandler products
        (addOrderItemHandler products db id userId productId q1 p1).2
        id userId productId q2 p2).2.orderItems.filter (fun it =>
          it.orderId == id && it.productId == productId) =
      [⟨db.nextOrderItemId, id, productId, q1 + q2, p2⟩])
    ∧ (∃ o1, findOrder
          (addOrderItemHandler products db id userId productId q1 p1).2
          id userId = some o1 ∧
        o1.totalAmount = ((orderItemsOf
            (addOrderItemHandler products db id userId productId q1 p1).2
            id).map (fun it => it.price * it.quantity)).sum)
    ∧ (∃ o2, findOrder
          (addOrderItemHandler products
            (addOrderItemHandler products db id userId productId q1 p1).2
            id userId productId q2 p2).2 id userId = some o2 ∧
        o2.totalAmount = ((orderItemsOf
            (addOrderItemHandler products
              (addOrderItemHandler products db id userId productId q1 p1).2
              id userId productId q2 p2).2 id).map
            (fun it => it.price * it.quantity)).sum) := by
  have hsum : ∀ l : List OrderItem,
      itemsTotal l = (l.map (fun it => it.price * it.quantity)).sum := by
    intro l
    rw [List.sum_eq_foldl]
    rfl
  simp only [addOrderItemHandler]
  obtain ⟨hitems1, o1, hfo1, hst1, htot1⟩ :=
    addOrderItem_create_post products db id userId productId q1 p1 order
      product hfind hpend hprod hstock hnone
  have hpend1 : o1.status = OrderStatus.PENDING := hst1.trans hpend
  have horderItems1 : orderItemsOf
      (addOrderItemRun none products db id userId productId q1 p1).2 id =
      orderItemsOf db id ++
        [⟨db.nextOrderItemId, id, productId, q1, p1⟩] := by
    simp only [orderItemsOf]
    rw [hitems1, List.filter_append]
    simp
  have hsome1 : (orderItemsOf
      (addOrderItemRun none products db id userId productId q1 p1).2
      id).find? (fun it => it.productId == productId) =
      some ⟨db.nextOrderItemId, id, productId, q1, p1⟩ := by
    rw [horderItems1, find?_append_of_none _ _ _ hnone]
    simp
  obtain ⟨hitems2, o2, hfo2, hst2, htot2⟩ :=
    addOrderItem_merge_post products
      (addOrderItemRun none products db id userId productId q1 p1).2
      id userId productId q2 p2 o1 product
      ⟨db.nextOrderItemId, id, productId, q1, p1⟩
      hfo1 hpend1 hprod hstock hsome1
  have hitems2' : (addOrderItemRun none products
      (addOrderItemRun none products db id userId productId q1 p1).2
      id userId productId q2 p2).2.orderItems =
      db.orderItems ++
        [⟨db.nextOrderItemId, id, productId, q1 + q2, p2⟩] := by
    rw [hitems2, hitems1, List.map_append]
    congr 1
    · refine map_eq_self_of_eq _ db.orderItems (fun a ha => ?_)
      have hne : a.id ≠ db.nextOrderItemId := Nat.ne_of_lt (hids a ha)
      simp [hne]
    · simp
  have hnilpair : db.orderItems.filter (fun it =>
      it.orderId == id && it.productId == productId) = [] := by
    refine List.filter_eq_nil_iff.mpr ?_
    intro a ha hcontra
    rw [Bool.and_eq_true] at hcontra
    have hmemo : a ∈ db.orderItems.filter (fun it => it.orderId == id) :=
      List.mem_filter.mpr ⟨ha, hcontra.1⟩
    have := List.find?_eq_none.mp hnone a hmemo
    exact this hcontra.2
  refine ⟨?_, ⟨o1, hfo1, ?_⟩, ⟨o2, hfo2, ?_⟩⟩
  · rw [hitems2', List.filter_append, hnilpair]
    simp
  · rw [htot1, hsum]
  · rw [htot2, hsum]

/-- Witness for C4: adding quantity 2 at price 10 then quantity 3 at
price 11 of product 7 to the sample PENDING order. -/
theorem C4_witness :
    ((addOrderItemHandler sampleProducts
        (addOrderItemHandler sampleProducts sampleOrderDb 1 10 7 2 10).2
        1 10 7 3 11).2.orderItems.filter (fun it =>
          it.orderId == 1 && it.productId == 7) =
      [⟨sampleOrderDb.nextOrderItemId, 1, 7, 2 + 3, 11⟩])
    ∧ (∃ o1, findOrder
          (addOrderItemHandler sampleProducts sampleOrderDb 1 10 7 2 10).2
          1 10 = some o1 ∧
        o1.totalAmount = ((orderItemsOf
            (addOrderItemHandler sampleProducts sampleOrderDb 1 10 7 2 10).2
            1).map (fun it => it.price * it.quantity)).sum)
    ∧ (∃ o2, findOrder
          (addOrderItemHandler sampleProducts
            (addOrderItemHandler sampleProducts sampleOrderDb 1 10 7 2 10).2
            1 10 7 3 11).2 1 10 = some o2 ∧
        o2.totalAmount = ((orderItemsOf
            (addOrderItemHandler sampleProducts
              (addOrderItemHandler sampleProducts sampleOrderDb 1 10 7 2 10).2
              1 10 7 3 11).2 1).map
            (fun it => it.price * it.quantity)).sum) :=
  C4_addOrderItem_sums_quantities sampleProducts sampleOrderDb 1 10 7 2 10 3
    11 sampleOrder ⟨7, 10, 5⟩ rfl rfl rfl (by decide) rfl
    (by intro it hit; cases hit)

end ECom
